import Mathlib

/-!
# Shallow embedding of the gasmon price monitor

This file embeds the state and operations of `src/gasmon.js` (a small
Ethereum gas-price monitor) as executable Lean definitions and proves
properties of them.  JavaScript numbers are modelled as rationals; the
module-level mutable globals (`_speeds`, `_currentSpeed`, `_optimized`,
`_details`, `_onNewSpeedCallback`) become fields of a `State` record that
the operations transform explicitly.  Callback invocations are counted in
the state; console logging has no observable effect on the model.
-/

namespace Gasmon

/-- One entry of the `_speeds` table: a price in gwei and a wait time. -/
structure SpeedEntry where
  gwei : ℚ
  wait : ℚ
deriving DecidableEq, Repr

/-- The fields of an Eth Gas Station response that the monitor reads.
Further pass-through fields of the raw JSON do not influence any
operation and are omitted from the model. -/
structure Response where
  safeLow : ℚ
  average : ℚ
  fast : ℚ
  fastest : ℚ
  safeLowWait : ℚ
  avgWait : ℚ
  fastWait : ℚ
  fastestWait : ℚ
deriving DecidableEq, Repr

/-- The monitor's mutable module state.  `speeds1` … `speeds4` are the
four cells of the `_speeds` array (its length is fixed at 4 in the
source); `callbackRegistered` records whether `init` was given a
callback, and `callbackCount` counts its invocations. -/
structure State where
  speeds1 : SpeedEntry
  speeds2 : SpeedEntry
  speeds3 : SpeedEntry
  speeds4 : SpeedEntry
  currentSpeed : ℚ
  optimized : Bool
  details : Option Response
  callbackRegistered : Bool
  callbackCount : ℕ
deriving DecidableEq, Repr

/-- Module state at load/`init` time: the default `_speeds` table
`[{gwei:1,wait:7.1},{gwei:5,wait:3.5},{gwei:10,wait:0.5},{gwei:20,wait:0.5}]`,
`_currentSpeed = defaultSpeed = 2`, `_optimized = true`, no response yet. -/
def initState (cb : Bool) : State :=
  { speeds1 := ⟨1, 71/10⟩
    speeds2 := ⟨5, 7/2⟩
    speeds3 := ⟨10, 1/2⟩
    speeds4 := ⟨20, 1/2⟩
    currentSpeed := 2
    optimized := true
    details := none
    callbackRegistered := cb
    callbackCount := 0 }

/-- JavaScript number-to-integer truncation (toward zero) on rationals:
floor for non-negative arguments, ceiling for negative ones. -/
def jsTrunc (q : ℚ) : ℤ :=
  if 0 ≤ q then ⌊q⌋ else ⌈q⌉

/-- The JavaScript `%` operator on numbers: remainder of truncating
division, with the dividend's sign. -/
def jsMod (a b : ℚ) : ℚ := a - b * (jsTrunc (a / b) : ℚ)

/-- `setSpeed(speed)`: rejects `speed < 1 || speed > 4`, otherwise stores
the argument in `_currentSpeed`; returns the success flag. -/
def setSpeed (speed : ℚ) (st : State) : Bool × State :=
  if speed < 1 ∨ speed > 4 then (false, st)
  else (true, { st with currentSpeed := speed })

/-- `nextSpeed()`: computes `(_currentSpeed+1) % 4`, attempts `setSpeed`
with it, and returns the (possibly unchanged) `_currentSpeed`. -/
def nextSpeed (st : State) : ℚ × State :=
  let nextIndex := jsMod (st.currentSpeed + 1) 4
  let st1 := (setSpeed nextIndex st).2
  (st1.currentSpeed, st1)

/-- The `newSpeed1` candidate of `onGasPricesReceived`. -/
def newSpeed1 (r : Response) : SpeedEntry := ⟨r.safeLow / 10, r.safeLowWait⟩

/-- The `newSpeed2` candidate of `onGasPricesReceived`. -/
def newSpeed2 (r : Response) : SpeedEntry := ⟨r.average / 10, r.avgWait⟩

/-- The `newSpeed3` candidate of `onGasPricesReceived`. -/
def newSpeed3 (r : Response) : SpeedEntry := ⟨r.fast / 10, r.fastWait⟩

/-- The `newSpeed4` candidate before the optimization step. -/
def newSpeed4raw (r : Response) : SpeedEntry := ⟨r.fastest / 10, r.fastestWait⟩

/-- The `newSpeed4` candidate after the optimization step: when
`_optimized` and the fastest wait equals the fast wait, the fast
candidate replaces the fastest one. -/
def newSpeed4 (opt : Bool) (r : Response) : SpeedEntry :=
  if opt ∧ (newSpeed4raw r).wait = (newSpeed3 r).wait then newSpeed3 r
  else newSpeed4raw r

/-- The change test of `onGasPricesReceived`: some stored `gwei` differs
from the corresponding (post-optimization) candidate's `gwei`. -/
def pricesChanged (st : State) (r : Response) : Prop :=
  st.speeds1.gwei ≠ (newSpeed1 r).gwei ∨ st.speeds2.gwei ≠ (newSpeed2 r).gwei ∨
  st.speeds3.gwei ≠ (newSpeed3 r).gwei ∨ st.speeds4.gwei ≠ (newSpeed4 st.optimized r).gwei

instance (st : State) (r : Response) : Decidable (pricesChanged st r) := by
  unfold pricesChanged; infer_instance

/-- `onGasPricesReceived(response)`: stores the raw response in
`_details`, derives the four candidates, and — only when some price
changed — replaces the whole table and invokes the callback if one is
registered. -/
def onGasPricesReceived (r : Response) (st : State) : State :=
  let st1 := { st with details := some r }
  if pricesChanged st r then
    { st1 with
      speeds1 := newSpeed1 r
      speeds2 := newSpeed2 r
      speeds3 := newSpeed3 r
      speeds4 := newSpeed4 st.optimized r
      callbackCount := if st.callbackRegistered then st.callbackCount + 1 else st.callbackCount }
  else st1

/-- Outcome of the `$.get` fetch: a parsed body with `status == "success"`,
or any failure (network error, non-success status, malformed body), in
which case the handler never runs. -/
inductive FetchResult where
  | success (data : Response)
  | failure
deriving DecidableEq, Repr

/-- `estimateGasCost()`: one refresh; only a successful fetch reaches
`onGasPricesReceived`. -/
def estimateGasCost : FetchResult → State → State
  | FetchResult.success data, st => onGasPricesReceived data st
  | FetchResult.failure, st => st

/-- `speeds()`: the current four-entry table. -/
def speeds (st : State) : List SpeedEntry :=
  [st.speeds1, st.speeds2, st.speeds3, st.speeds4]

/-- Array access `_speeds[i]` with an arbitrary numeric index: a
`SpeedEntry` at the integer indices 0–3, `none` (JavaScript `undefined`)
elsewhere. -/
def speedsGet (st : State) (i : ℚ) : Option SpeedEntry :=
  if i = 0 then some st.speeds1
  else if i = 1 then some st.speeds2
  else if i = 2 then some st.speeds3
  else if i = 3 then some st.speeds4
  else none

/-- `idealGasPriceInGwei(speed)`: a falsy argument (omitted, or the
number 0) is replaced by `_currentSpeed`; then the `gwei` field of
`_speeds[speed-1]` is read.  The read is `none` where the source would
dereference `undefined`. -/
def idealGasPriceInGwei (st : State) (speed : Option ℚ) : Option ℚ :=
  let s := match speed with
    | none => st.currentSpeed
    | some v => if v = 0 then st.currentSpeed else v
  (speedsGet st (s - 1)).map SpeedEntry.gwei

/-- `idealGasPrice(speed)`: `idealGasPriceInGwei(speed) * 1000000000`. -/
def idealGasPrice (st : State) (speed : Option ℚ) : Option ℚ :=
  (idealGasPriceInGwei st speed).map (fun g => g * 1000000000)

/-- `optimized(trueOrFalse)`: stores the flag. -/
def setOptimized (b : Bool) (st : State) : State := { st with optimized := b }

/-- A public operation on the monitor state. -/
inductive Op where
  | select (t : ℚ)
  | advance
  | refresh (res : FetchResult)
  | setOpt (b : Bool)

/-- Apply one public operation. -/
def applyOp (st : State) : Op → State
  | Op.select t => (setSpeed t st).2
  | Op.advance => (nextSpeed st).2
  | Op.refresh res => estimateGasCost res st
  | Op.setOpt b => setOptimized b st

/-- Apply a sequence of public operations, oldest first. -/
def applyOps (st : State) : List Op → State
  | [] => st
  | op :: rest => applyOps (applyOp st op) rest

/-- Whether an operation is a `select` with a non-integer argument. -/
def isIntSelect : Op → Bool
  | Op.select t => t.den == 1
  | _ => true

/-- The selected-tier invariant claimed by the specification. -/
def tierOK (st : State) : Prop :=
  st.currentSpeed = 1 ∨ st.currentSpeed = 2 ∨ st.currentSpeed = 3 ∨ st.currentSpeed = 4

/-- The example station response of the specification: prices 10, 10,
80, 350 deci-gwei; waits 3.2, 3.2, 0.5, 0.5. -/
def exResponse : Response :=
  ⟨10, 10, 80, 350, 16/5, 16/5, 1/2, 1/2⟩

/-- A response with the same prices as `exResponse` but different wait
times (and still equal fast/fastest waits). -/
def exResponse2 : Response :=
  ⟨10, 10, 80, 350, 4, 4, 1, 1⟩

/-- A response whose derived prices all equal the initial table's prices
while every wait time differs from the stored ones. -/
def exSame : Response :=
  ⟨10, 50, 100, 200, 1, 1, 1, 2⟩

/-- Evaluation rule for `jsMod _ 4` given the floor of the quotient. -/
lemma jsMod_four (a : ℚ) (n : ℤ) (h0 : 0 ≤ a) (h1 : (n : ℚ) ≤ a / 4) (h2 : a / 4 < n + 1) :
    jsMod a 4 = a - 4 * n := by
  unfold jsMod jsTrunc
  rw [if_pos (by positivity), Int.floor_eq_iff.mpr ⟨h1, h2⟩]

/-- `setSpeed` succeeds exactly on the interval `[1, 4]`. -/
lemma setSpeed_ok (speed : ℚ) (st : State) (h1 : 1 ≤ speed) (h2 : speed ≤ 4) :
    setSpeed speed st = (true, { st with currentSpeed := speed }) := by
  unfold setSpeed
  rw [if_neg (by push_neg; exact ⟨h1, h2⟩)]

/-- `setSpeed` rejects arguments outside `[1, 4]` without touching the state. -/
lemma setSpeed_fail (speed : ℚ) (st : State) (h : speed < 1 ∨ speed > 4) :
    setSpeed speed st = (false, st) := by
  unfold setSpeed
  rw [if_pos h]

/-- A refresh whose candidate prices all match only records the raw response. -/
lemma onGasPricesReceived_of_not_changed (st : State) (r : Response)
    (h : ¬ pricesChanged st r) :
    onGasPricesReceived r st = { st with details := some r } := by
  simp only [onGasPricesReceived]
  rw [if_neg h]

/-- A refresh with some changed candidate price replaces the table, records
the response, and bumps the callback counter when a callback is registered. -/
lemma onGasPricesReceived_of_changed (st : State) (r : Response)
    (h : pricesChanged st r) :
    onGasPricesReceived r st =
      { st with
        details := some r
        speeds1 := newSpeed1 r
        speeds2 := newSpeed2 r
        speeds3 := newSpeed3 r
        speeds4 := newSpeed4 st.optimized r
        callbackCount :=
          if st.callbackRegistered then st.callbackCount + 1 else st.callbackCount } := by
  simp only [onGasPricesReceived]
  rw [if_pos h]

/-- C1: the claimed cyclic advance fails at tier 3.  `nextSpeed` computes
`(_currentSpeed+1) % 4`, which is `0` at tier 3; `setSpeed 0` is rejected,
so the tier stays 3 and 3 is returned — contradicting the claim (tier 3
should advance to 4) and the function's own doc comment, while the other
three starting tiers do advance cyclically (1→2, 2→3, 4→1). -/
theorem C1_nextSpeed_stuck_at_tier_three :
    (nextSpeed { initState false with currentSpeed := 3 }).1 = 3 ∧
    (nextSpeed { initState false with currentSpeed := 3 }).2.currentSpeed = 3 ∧
    (nextSpeed { initState false with currentSpeed := 1 }).1 = 2 ∧
    (nextSpeed { initState false with currentSpeed := 2 }).1 = 3 ∧
    (nextSpeed { initState false with currentSpeed := 4 }).1 = 1 := by
  refine ⟨?_, ?_, ?_, ?_, ?_⟩
  · norm_num [nextSpeed]
    rw [jsMod_four 4 1 (by norm_num) (by norm_num) (by norm_num)]
    norm_num [setSpeed_fail 0 _ (by norm_num)]
  · norm_num [nextSpeed]
    rw [jsMod_four 4 1 (by norm_num) (by norm_num) (by norm_num)]
    norm_num [setSpeed_fail 0 _ (by norm_num)]
  · norm_num [nextSpeed]
    rw [jsMod_four 2 0 (by norm_num) (by norm_num) (by norm_num)]
    norm_num [setSpeed_ok 2 _ (by norm_num) (by norm_num)]
  · norm_num [nextSpeed]
    rw [jsMod_four 3 0 (by norm_num) (by norm_num) (by norm_num)]
    norm_num [setSpeed_ok 3 _ (by norm_num) (by norm_num)]
  · norm_num [nextSpeed]
    rw [jsMod_four 5 1 (by norm_num) (by norm_num) (by norm_num)]
    norm_num [setSpeed_ok 1 _ (by norm_num) (by norm_num)]

/-- C4: a failed fetch is a complete no-op on the monitor state: the
state — in particular the four-entry table returned by `speeds` and the
callback counter — is exactly what it was before the attempt. -/
theorem C4_fetch_failure_noop (st : State) :
    estimateGasCost FetchResult.failure st = st ∧
    speeds (estimateGasCost FetchResult.failure st) = speeds st ∧
    (estimateGasCost FetchResult.failure st).callbackCount = st.callbackCount :=
  ⟨rfl, rfl, rfl⟩

/-- C5 (amended): `setSpeed t` succeeds — returning `true` and storing `t`
as the selected tier — exactly when `1 ≤ t ≤ 4` (an interval check, not a
membership test in `{1,2,3,4}`), and for `t < 1` or `t > 4` it returns
`false` leaving the state untouched. -/
theorem C5_select_interval_validation (st : State) (t : ℚ) :
    (1 ≤ t → t ≤ 4 → setSpeed t st = (true, { st with currentSpeed := t })) ∧
    (t < 1 ∨ t > 4 → setSpeed t st = (false, st)) :=
  ⟨fun h1 h2 => setSpeed_ok t st h1 h2, fun h => setSpeed_fail t st h⟩

/-- C5 witness: `setSpeed` at the concrete arguments 0, 5 and 3. -/
theorem C5_select_interval_validation_witness :
    setSpeed 0 (initState false) = (false, initState false) ∧
    setSpeed 5 (initState false) = (false, initState false) ∧
    setSpeed 3 (initState false) = (true, { initState false with currentSpeed := 3 }) :=
  ⟨(C5_select_interval_validation (initState false) 0).2 (Or.inl (by norm_num)),
   (C5_select_interval_validation (initState false) 5).2 (Or.inr (by norm_num)),
   (C5_select_interval_validation (initState false) 3).1 (by norm_num) (by norm_num)⟩

/-- C5 counterexample: `setSpeed (5/2)` returns `true` and stores the
non-integer tier `5/2 ∉ {1,2,3,4}`, refuting "returns true … exactly when
t ∈ {1..4}" read over the integer tier set. -/
theorem C5_counterexample_half_tier :
    (setSpeed (5/2) (initState false)).1 = true ∧
    (setSpeed (5/2) (initState false)).2.currentSpeed = 5/2 ∧
    ¬ ((5/2 : ℚ) = 1 ∨ (5/2 : ℚ) = 2 ∨ (5/2 : ℚ) = 3 ∨ (5/2 : ℚ) = 4) := by
  rw [setSpeed_ok (5/2) (initState false) (by norm_num) (by norm_num)]
  refine ⟨rfl, rfl, by norm_num⟩

/-- C7: every candidate entry pairs the reported price divided by 10 with
the reported wait; `idealGasPrice` is `idealGasPriceInGwei` scaled by
`10^9`; concretely, after a refresh with `safeLow = 10` the SafeLow tier
reads 1 gwei and `10^9` wei. -/
theorem C7_price_unit_conversion :
    (∀ r : Response,
      newSpeed1 r = ⟨r.safeLow / 10, r.safeLowWait⟩ ∧
      newSpeed2 r = ⟨r.average / 10, r.avgWait⟩ ∧
      newSpeed3 r = ⟨r.fast / 10, r.fastWait⟩ ∧
      newSpeed4raw r = ⟨r.fastest / 10, r.fastestWait⟩) ∧
    (∀ (st : State) (speed : Option ℚ),
      idealGasPrice st speed = (idealGasPriceInGwei st speed).map (fun g => g * 1000000000)) ∧
    idealGasPriceInGwei (onGasPricesReceived exResponse (initState false)) (some 1) = some 1 ∧
    idealGasPrice (onGasPricesReceived exResponse (initState false)) (some 1) =
      some (10 ^ 9) := by
  refine ⟨fun r => ⟨rfl, rfl, rfl, rfl⟩, fun st s => rfl, ?_, ?_⟩ <;>
    norm_num [idealGasPrice, idealGasPriceInGwei, speedsGet, onGasPricesReceived, pricesChanged,
      newSpeed1, newSpeed2, newSpeed3, newSpeed4, newSpeed4raw, exResponse, initState]

/-- C8: with the tier omitted or falsy (the number 0), `idealGasPriceInGwei`
reads the entry of the selected tier; in particular after `setSpeed 3` the
no-argument call agrees with the explicit call at 3. -/
theorem C8_falsy_tier_fallback :
    (∀ st : State,
      idealGasPriceInGwei st none = idealGasPriceInGwei st (some st.currentSpeed) ∧
      idealGasPriceInGwei st (some 0) = idealGasPriceInGwei st (some st.currentSpeed)) ∧
    (∀ st : State,
      idealGasPriceInGwei (setSpeed 3 st).2 none =
        idealGasPriceInGwei (setSpeed 3 st).2 (some 3)) := by
  constructor
  · intro st
    by_cases h : st.currentSpeed = 0 <;> simp [idealGasPriceInGwei, h]
  · intro st
    rw [setSpeed_ok 3 st (by norm_num) (by norm_num)]
    norm_num [idealGasPriceInGwei]

/-- C10: every successful refresh stores the received raw response in
`_details` — also when no candidate price changed, as the concrete
conjuncts about `exSame` show — and no refresh (successful or failed)
moves the selected tier or the optimization flag. -/
theorem C10_raw_response_always_stored :
    (∀ (st : State) (r : Response),
      (onGasPricesReceived r st).details = some r ∧
      (onGasPricesReceived r st).currentSpeed = st.currentSpeed ∧
      (onGasPricesReceived r st).optimized = st.optimized) ∧
    (∀ (st : State) (res : FetchResult),
      (estimateGasCost res st).currentSpeed = st.currentSpeed ∧
      (estimateGasCost res st).optimized = st.optimized) ∧
    ¬ pricesChanged (initState true) exSame ∧
    (onGasPricesReceived exSame (initState true)).details = some exSame ∧
    speeds (onGasPricesReceived exSame (initState true)) = speeds (initState true) ∧
    (onGasPricesReceived exSame (initState true)).callbackCount =
      (initState true).callbackCount := by
  have hframe : ∀ (st : State) (r : Response),
      (onGasPricesReceived r st).details = some r ∧
      (onGasPricesReceived r st).currentSpeed = st.currentSpeed ∧
      (onGasPricesReceived r st).optimized = st.optimized := by
    intro st r
    by_cases h : pricesChanged st r
    · rw [onGasPricesReceived_of_changed st r h]
      exact ⟨rfl, rfl, rfl⟩
    · rw [onGasPricesReceived_of_not_changed st r h]
      exact ⟨rfl, rfl, rfl⟩
  have hsame : ¬ pricesChanged (initState true) exSame := by
    norm_num [pricesChanged, newSpeed1, newSpeed2, newSpeed3, newSpeed4, newSpeed4raw,
      exSame, initState]
  refine ⟨hframe, ?_, hsame, (hframe _ _).1, ?_, ?_⟩
  · intro st res
    cases res with
    | success data => exact ⟨(hframe st data).2.1, (hframe st data).2.2⟩
    | failure => exact ⟨rfl, rfl⟩
  · rw [onGasPricesReceived_of_not_changed _ _ hsame]; rfl
  · rw [onGasPricesReceived_of_not_changed _ _ hsame]

/-- C2: with a callback registered, a successful refresh replaces the whole
table with the post-optimization candidates and invokes the callback
exactly when some candidate price differs from the stored one; when all
four prices match, the table and the counter are untouched; and a second
refresh whose post-optimization prices equal the first one's adds no
second invocation. -/
theorem C2_price_change_notification (st : State) (r r2 : Response)
    (hcb : st.callbackRegistered = true) :
    (pricesChanged st r →
      speeds (onGasPricesReceived r st) =
        [newSpeed1 r, newSpeed2 r, newSpeed3 r, newSpeed4 st.optimized r] ∧
      (onGasPricesReceived r st).callbackCount = st.callbackCount + 1) ∧
    (¬ pricesChanged st r →
      speeds (onGasPricesReceived r st) = speeds st ∧
      (onGasPricesReceived r st).callbackCount = st.callbackCount) ∧
    (pricesChanged st r →
      (newSpeed1 r2).gwei = (newSpeed1 r).gwei →
      (newSpeed2 r2).gwei = (newSpeed2 r).gwei →
      (newSpeed3 r2).gwei = (newSpeed3 r).gwei →
      (newSpeed4 st.optimized r2).gwei = (newSpeed4 st.optimized r).gwei →
      (onGasPricesReceived r2 (onGasPricesReceived r st)).callbackCount =
        st.callbackCount + 1) := by
  refine ⟨?_, ?_, ?_⟩
  · intro h
    rw [onGasPricesReceived_of_changed st r h]
    exact ⟨rfl, by simp [hcb]⟩
  · intro h
    rw [onGasPricesReceived_of_not_changed st r h]
    exact ⟨rfl, rfl⟩
  · intro h h1 h2 h3 h4
    have hnc : ¬ pricesChanged (onGasPricesReceived r st) r2 := by
      rw [onGasPricesReceived_of_changed st r h]
      unfold pricesChanged
      push_neg
      exact ⟨h1.symm, h2.symm, h3.symm, h4.symm⟩
    rw [onGasPricesReceived_of_not_changed _ r2 hnc, onGasPricesReceived_of_changed st r h]
    simp [hcb]

/-- C2 witness: from the initial state with a registered callback, the
example response changes prices (one invocation), and a second response
with the same post-optimization prices but different waits adds none. -/
theorem C2_price_change_notification_witness :
    pricesChanged (initState true) exResponse ∧
    (onGasPricesReceived exResponse (initState true)).callbackCount = 1 ∧
    (onGasPricesReceived exResponse2 (onGasPricesReceived exResponse (initState true))).callbackCount = 1 := by
  have hch : pricesChanged (initState true) exResponse := by
    norm_num [pricesChanged, newSpeed1, newSpeed2, newSpeed3, newSpeed4, newSpeed4raw,
      exResponse, initState]
  have h := C2_price_change_notification (initState true) exResponse exResponse2 rfl
  refine ⟨hch, (h.1 hch).2, h.2.2 hch ?_ ?_ ?_ ?_⟩ <;>
    norm_num [newSpeed1, newSpeed2, newSpeed3, newSpeed4, newSpeed4raw,
      exResponse, exResponse2, initState]

/-- C3: when the reported fastest wait equals the fast wait, the enabled
optimization replaces the Fastest candidate by the Fast candidate (price
and wait); disabled, the Fastest candidate keeps its own reported price
divided by 10 and its own reported wait. -/
theorem C3_fastest_collapse (r : Response) (hw : r.fastestWait = r.fastWait) :
    newSpeed4 true r = newSpeed3 r ∧
    newSpeed4 false r = newSpeed4raw r ∧
    (newSpeed4 false r).gwei = r.fastest / 10 ∧
    (newSpeed4 false r).wait = r.fastestWait := by
  have hoff : newSpeed4 false r = newSpeed4raw r := by
    unfold newSpeed4
    rw [if_neg]
    rintro ⟨hb, -⟩
    exact Bool.false_ne_true hb
  refine ⟨?_, hoff, by rw [hoff]; rfl, by rw [hoff]; rfl⟩
  unfold newSpeed4
  rw [if_pos ⟨rfl, hw⟩]

/-- C3 witness: `fast = 80`, `fastest = 350`, equal waits `0.5`: the
enabled candidate is 8 gwei (the Fast entry), the disabled one 35 gwei. -/
theorem C3_fastest_collapse_witness :
    exResponse.fastestWait = exResponse.fastWait ∧
    newSpeed4 true exResponse = ⟨8, 1/2⟩ ∧
    newSpeed3 exResponse = ⟨8, 1/2⟩ ∧
    newSpeed4 false exResponse = ⟨35, 1/2⟩ := by
  have h := C3_fastest_collapse exResponse rfl
  refine ⟨rfl, ?_, ?_, ?_⟩
  · rw [h.1]
    norm_num [newSpeed3, exResponse]
  · norm_num [newSpeed3, exResponse]
  · rw [h.2.1]
    norm_num [newSpeed4raw, exResponse]

/-- C9: an explicitly supplied truthy tier outside `{1,2,3,4}` indexes
outside the four-entry table, so the guarded lookup yields no entry and
both read accessors return `none`. -/
theorem C9_out_of_range_tier_no_entry (st : State) (t : ℚ)
    (ht0 : t ≠ 0) (ht : ¬ (t = 1 ∨ t = 2 ∨ t = 3 ∨ t = 4)) :
    idealGasPriceInGwei st (some t) = none ∧ idealGasPrice st (some t) = none := by
  push_neg at ht
  obtain ⟨h1, h2, h3, h4⟩ := ht
  have k1 : ¬ (t - 1 = 0) := fun h => h1 (by linarith)
  have k2 : ¬ (t - 1 = 1) := fun h => h2 (by linarith)
  have k3 : ¬ (t - 1 = 2) := fun h => h3 (by linarith)
  have k4 : ¬ (t - 1 = 3) := fun h => h4 (by linarith)
  have e : idealGasPriceInGwei st (some t) = none := by
    show (speedsGet st ((if t = 0 then st.currentSpeed else t) - 1)).map SpeedEntry.gwei = none
    rw [if_neg ht0]
    unfold speedsGet
    rw [if_neg k1, if_neg k2, if_neg k3, if_neg k4]
    rfl
  exact ⟨e, by simp [idealGasPrice, e]⟩

/-- C9 witness: tier 5 is truthy and out of range; both accessors read
nothing from the initial state. -/
theorem C9_out_of_range_tier_no_entry_witness :
    ((5 : ℚ) ≠ 0) ∧ ¬ ((5 : ℚ) = 1 ∨ (5 : ℚ) = 2 ∨ (5 : ℚ) = 3 ∨ (5 : ℚ) = 4) ∧
    idealGasPriceInGwei (initState false) (some 5) = none ∧
    idealGasPrice (initState false) (some 5) = none := by
  refine ⟨by norm_num, by norm_num, ?_, ?_⟩
  · exact (C9_out_of_range_tier_no_entry (initState false) 5 (by norm_num) (by norm_num)).1
  · exact (C9_out_of_range_tier_no_entry (initState false) 5 (by norm_num) (by norm_num)).2

/-- The initial selected tier, 2, satisfies the tier invariant. -/
lemma tierOK_initState (cb : Bool) : tierOK (initState cb) := Or.inr (Or.inl rfl)

/-- A successful refresh never moves the selected tier. -/
lemma currentSpeed_onGasPricesReceived (r : Response) (st : State) :
    (onGasPricesReceived r st).currentSpeed = st.currentSpeed := by
  by_cases h : pricesChanged st r
  · rw [onGasPricesReceived_of_changed st r h]
  · rw [onGasPricesReceived_of_not_changed st r h]

/-- `nextSpeed` keeps the tier in `{1,2,3,4}` (at tier 3 the rejected
`setSpeed 0` leaves the tier at 3). -/
lemma tierOK_nextSpeed (st : State) (h : tierOK st) : tierOK (nextSpeed st).2 := by
  show tierOK (setSpeed (jsMod (st.currentSpeed + 1) 4) st).2
  rcases h with h | h | h | h
  · rw [h, show ((1:ℚ) + 1) = 2 by norm_num,
      jsMod_four 2 0 (by norm_num) (by norm_num) (by norm_num)]
    norm_num [setSpeed_ok 2 st (by norm_num) (by norm_num)]
    exact Or.inr (Or.inl rfl)
  · rw [h, show ((2:ℚ) + 1) = 3 by norm_num,
      jsMod_four 3 0 (by norm_num) (by norm_num) (by norm_num)]
    norm_num [setSpeed_ok 3 st (by norm_num) (by norm_num)]
    exact Or.inr (Or.inr (Or.inl rfl))
  · rw [h, show ((3:ℚ) + 1) = 4 by norm_num,
      jsMod_four 4 1 (by norm_num) (by norm_num) (by norm_num)]
    norm_num [setSpeed_fail 0 st (Or.inl (by norm_num))]
    exact Or.inr (Or.inr (Or.inl h))
  · rw [h, show ((4:ℚ) + 1) = 5 by norm_num,
      jsMod_four 5 1 (by norm_num) (by norm_num) (by norm_num)]
    norm_num [setSpeed_ok 1 st (by norm_num) (by norm_num)]
    exact Or.inl rfl

/-- Any single public operation whose `select` argument (if any) is an
integer preserves the tier invariant. -/
lemma tierOK_applyOp (st : State) (op : Op) (hop : isIntSelect op = true)
    (h : tierOK st) : tierOK (applyOp st op) := by
  cases op with
  | select t =>
    show tierOK (setSpeed t st).2
    by_cases hr : t < 1 ∨ t > 4
    · rw [setSpeed_fail t st hr]
      exact h
    · push_neg at hr
      rw [setSpeed_ok t st hr.1 hr.2]
      have hden : t.den = 1 := by simpa [isIntSelect] using hop
      have ht : (t.num : ℚ) = t := Rat.coe_int_num_of_den_eq_one hden
      have b1 : 1 ≤ t.num := by
        have := hr.1
        rw [← ht] at this
        exact_mod_cast this
      have b4 : t.num ≤ 4 := by
        have := hr.2
        rw [← ht] at this
        exact_mod_cast this
      have hcases : t.num = 1 ∨ t.num = 2 ∨ t.num = 3 ∨ t.num = 4 := by omega
      have hq : t = 1 ∨ t = 2 ∨ t = 3 ∨ t = 4 := by
        rcases hcases with hc | hc | hc | hc
        · exact Or.inl (by rw [← ht, hc]; norm_num)
        · exact Or.inr (Or.inl (by rw [← ht, hc]; norm_num))
        · exact Or.inr (Or.inr (Or.inl (by rw [← ht, hc]; norm_num)))
        · exact Or.inr (Or.inr (Or.inr (by rw [← ht, hc]; norm_num)))
      simpa [tierOK] using hq
  | advance => exact tierOK_nextSpeed st h
  | refresh res =>
    cases res with
    | success data =>
      show tierOK (onGasPricesReceived data st)
      unfold tierOK
      rw [currentSpeed_onGasPricesReceived]
      exact h
    | failure => exact h
  | setOpt b => exact h

/-- Integer-`select` operation sequences preserve the tier invariant. -/
lemma tierOK_applyOps (ops : List Op) (st : State)
    (hops : ∀ op ∈ ops, isIntSelect op = true) (h : tierOK st) :
    tierOK (applyOps st ops) := by
  induction ops generalizing st with
  | nil => exact h
  | cons op rest ih =>
    exact ih (applyOp st op) (fun o ho => hops o (List.mem_cons_of_mem op ho))
      (tierOK_applyOp st op (hops op (List.mem_cons_self op rest)) h)

/-- C6 (amended): from initialization, any sequence of public operations
whose `select` arguments are integers keeps the selected tier in
`{1,2,3,4}`; a non-integer numeric `select` argument breaks the
invariant, as the counterexample shows. -/
theorem C6_tier_invariant_integer_ops (cb : Bool) (ops : List Op)
    (hops : ∀ op ∈ ops, isIntSelect op = true) :
    tierOK (applyOps (initState cb) ops) :=
  tierOK_applyOps ops (initState cb) hops (tierOK_initState cb)

/-- C6 witness: a concrete integer-argument operation sequence. -/
theorem C6_tier_invariant_integer_ops_witness :
    (∀ op ∈ [Op.select 3, Op.advance, Op.refresh (FetchResult.success exResponse),
        Op.setOpt false], isIntSelect op = true) ∧
    tierOK (applyOps (initState true)
      [Op.select 3, Op.advance, Op.refresh (FetchResult.success exResponse),
        Op.setOpt false]) :=
  ⟨by simp [isIntSelect], C6_tier_invariant_integer_ops true _ (by simp [isIntSelect])⟩

/-- C6 counterexample: `select` with the numeric argument `5/2` is
accepted by the range guard, so the state reached by this single public
operation has a selected tier outside `{1,2,3,4}`. -/
theorem C6_counterexample_non_integer_select :
    (applyOps (initState false) [Op.select (5/2)]).currentSpeed = 5/2 ∧
    ¬ tierOK (applyOps (initState false) [Op.select (5/2)]) := by
  have e : applyOps (initState false) [Op.select (5/2)] =
      { initState false with currentSpeed := 5/2 } := by
    show (setSpeed (5/2) (initState false)).2 = _
    rw [setSpeed_ok (5/2) (initState false) (by norm_num) (by norm_num)]
  rw [e]
  refine ⟨rfl, ?_⟩
  unfold tierOK
  push_neg
  refine ⟨by norm_num, by norm_num, by norm_num, by norm_num⟩

end Gasmon
